import Mathlib

/-!
# RCH::CodeTimer

A shallow embedding of `include/rchcodetimer.h` and of the demo program
`demo/demo.cpp`, followed by the properties of the timer's lifecycle.

Modelling conventions.

* `TIMER_VALUE` is `double` in the source.  Here it is the field `ℚ` of exact
  rationals: every arithmetic step of `now` and `result` is carried out without
  floating-point rounding error.
* A `TIMER_VALUE*` is `Option Nat`: `none` is `nullptr`, `some p` is the address
  of a caller-owned `double` variable.
* The clock is an input: every call of `now()` receives the nanosecond tick
  count that `time_since_epoch().count()` returned at that moment.
* Side effects are explicit.  The destructor returns the list of effects it
  performs, and `World.run` replays them on the caller's memory and on the
  character stream `std::cout`.
-/

namespace RCH

/-! ## Module definitions -/

/-- The timestamp type, `#define TIMER_VALUE double`, over exact arithmetic. -/
abbrev TIMER_VALUE := ℚ

/-- The post-comma precision, `#define TIMER_PRECI 6`. -/
def TIMER_PRECI : ℕ := 6

/-! ## Library functions used by the header -/

/-- The function `std::round`: the nearest integer, halfway cases away from zero. -/
def std_round (x : TIMER_VALUE) : TIMER_VALUE :=
  if 0 ≤ x then ((⌊x + 1 / 2⌋ : ℤ) : ℚ) else ((⌈x - 1 / 2⌉ : ℤ) : ℚ)

/-- The function `std::pow` at a non-negative integral exponent. -/
def std_pow (base : TIMER_VALUE) (exponent : ℕ) : TIMER_VALUE :=
  base ^ exponent

/-- Rounding to the nearest integer with ties to the even neighbour, the rule
`printf` applies to the digits it drops. -/
def roundHalfEven (x : ℚ) : ℤ :=
  let f := ⌊x⌋
  let r := x - f
  if r < 1 / 2 then f else if 1 / 2 < r then f + 1 else if f % 2 = 0 then f else f + 1

/-- Six decimal digits of `n`, most significant first, padded with zeros. -/
def digits6 (n : ℕ) : List Char :=
  [5, 4, 3, 2, 1, 0].map fun i => Char.ofNat (48 + n / 10 ^ i % 10)

/-- The function `std::to_string (double)`, which renders as `printf ("%f")`
does: an optional minus sign, the integer part, a point and six fractional
digits. -/
def to_string (x : TIMER_VALUE) : String :=
  let m : ℕ := (roundHalfEven (|x| * 10 ^ 6)).toNat
  (if x < 0 then "-" else "") ++ Nat.repr (m / 10 ^ 6) ++ "." ++ String.mk (digits6 (m % 10 ^ 6))

/-! ## Effects and the outside world -/

/-- The two side effects the destructor can have. -/
inductive Effect where
  /-- The assignment `*output = v` to the variable at address `p`. -/
  | store (p : ℕ) (v : TIMER_VALUE)
  /-- The characters `s` inserted into `std::cout`. -/
  | cout (s : String)

/-- What a timer can touch outside itself: the caller's `double` variables, by
address, and the text written to `std::cout` so far. -/
structure World where
  mem : ℕ → TIMER_VALUE
  console : String

/-- One effect applied to the world. -/
def World.perform (w : World) : Effect → World
  | Effect.store p v => { w with mem := Function.update w.mem p v }
  | Effect.cout s => { w with console := w.console ++ s }

/-- A sequence of effects applied in order. -/
def World.run (w : World) (es : List Effect) : World :=
  es.foldl World.perform w

/-! ## class CodeTimer -/

/-- The data members of `RCH::CodeTimer` with their default initialisers. -/
structure CodeTimer where
  instanceId : String := "CodeTimer"
  started : TIMER_VALUE := 0
  stopped : TIMER_VALUE := 0
  output : Option ℕ := none

namespace CodeTimer

/-- The method `now ()`: the nanosecond tick `count` of the clock, scaled by `1e-9`. -/
def now (count : ℤ) : TIMER_VALUE :=
  1e-9 * count

/-- The method `result ()`: the interval between the start and stop events,
rounded at `TIMER_PRECI` digits. -/
def result (self : CodeTimer) : TIMER_VALUE :=
  let difference := self.stopped - self.started
  let factor := std_pow 10 TIMER_PRECI
  std_round (difference * factor) / factor

/-- The constructor `CodeTimer ()`. -/
def ctor (count : ℤ) : CodeTimer :=
  { started := now count }

/-- The constructor `CodeTimer (std::string InstanceId)`. -/
def ctorInstanceId (InstanceId : String) (count : ℤ) : CodeTimer :=
  { instanceId := InstanceId, started := now count }

/-- The constructor `CodeTimer (TIMER_VALUE* ResultStorage)`. -/
def ctorResultStorage (ResultStorage : Option ℕ) (count : ℤ) : CodeTimer :=
  { output := ResultStorage, started := now count }

/-- The destructor `~CodeTimer ()`, run when the clock reads `count`: the
timer's final state and the effects performed. -/
def dtor (self : CodeTimer) (count : ℤ) : CodeTimer × List Effect :=
  let self := { self with stopped := now count }
  match self.output with
  | some p => ({ self with output := none }, [Effect.store p self.result])
  | none =>
    (self, [Effect.cout (self.instanceId ++ " finished in " ++ to_string self.result ++ " ns" ++ "\n")])

end CodeTimer

/-! ## Scopes and the demo program -/

/-- A block `{ RCH::CodeTimer timer (...); body }`: the timer has been
constructed on entry, `body` runs, and on exit, when the clock reads `count`,
the destructor runs. -/
def scope (timer : CodeTimer) (count : ℤ) (body : World → World) (w : World) : World :=
  (body w).run (timer.dtor count).2

end RCH

namespace demo

open RCH

/-- The function `main` of `demo.cpp`.  The six clock readings are those of the
six calls of `now ()`, in program order, and `t3result` is the address of the
local variable of that name.  The loops over `value` touch neither the timers
nor the console and are left out. -/
def main (clock : Fin 6 → ℤ) (t3result : ℕ) (w : World) : World :=
  scope (CodeTimer.ctorInstanceId "int main" (clock 0)) (clock 5) (fun w =>
    let w := scope (CodeTimer.ctorInstanceId "sub scope" (clock 1)) (clock 2) id w
    let w := { w with mem := Function.update w.mem t3result 0 }
    let w := scope (CodeTimer.ctorResultStorage (some t3result) (clock 3)) (clock 4) id w
    w.perform (Effect.cout ("timer3 finished in " ++ to_string (w.mem t3result) ++ " ns" ++ "\n"))) w

end demo

namespace RCH

/-! ## Rounding -/

theorem std_round_isInt (x : ℚ) : ∃ n : ℤ, std_round x = n := by
  unfold std_round
  split_ifs
  · exact ⟨_, rfl⟩
  · exact ⟨_, rfl⟩

theorem std_round_sub_le (x : ℚ) : std_round x - x ≤ 1 / 2 := by
  unfold std_round
  split_ifs with h
  · have := Int.floor_le (x + 1 / 2)
    linarith
  · have := Int.ceil_lt_add_one (x - 1 / 2)
    linarith

theorem sub_std_round_le (x : ℚ) : x - std_round x ≤ 1 / 2 := by
  unfold std_round
  split_ifs with h
  · have := Int.lt_floor_add_one (x + 1 / 2)
    linarith
  · have := Int.le_ceil (x - 1 / 2)
    linarith

theorem abs_std_round_sub_le (x : ℚ) : |std_round x - x| ≤ 1 / 2 :=
  abs_le.mpr ⟨by linarith [sub_std_round_le x], std_round_sub_le x⟩

theorem std_round_nonneg {x : ℚ} (h : 0 ≤ x) : 0 ≤ std_round x := by
  unfold std_round
  rw [if_pos h]
  have : (0 : ℤ) ≤ ⌊x + 1 / 2⌋ := Int.floor_nonneg.mpr (by linarith)
  exact_mod_cast this

/-- No integer is closer to `x` than `std_round x`. -/
theorem std_round_nearest (x : ℚ) (k : ℤ) : |std_round x - x| ≤ |(k : ℚ) - x| := by
  obtain ⟨n, hn⟩ := std_round_isInt x
  have h := abs_std_round_sub_le x
  rw [hn] at h ⊢
  by_cases hk : k = n
  · rw [hk]
  · have h1 : (1 : ℚ) ≤ |(k : ℚ) - n| := by
      have : (1 : ℤ) ≤ |k - n| := Int.one_le_abs (sub_ne_zero.mpr hk)
      exact_mod_cast this
    have h2 : |(k : ℚ) - n| ≤ |(k : ℚ) - x| + |(n : ℚ) - x| := by
      have := abs_sub_le (k : ℚ) x n
      rwa [abs_sub_comm x (n : ℚ)] at this
    linarith

/-- A halfway case is rounded to the neighbour of larger magnitude. -/
theorem std_round_tie_away (x : ℚ) (h : |std_round x - x| = 1 / 2) : |x| < |std_round x| := by
  unfold std_round at h ⊢
  split_ifs at h ⊢ with hx
  · have h1 := Int.lt_floor_add_one (x + 1 / 2)
    have h2 : ((⌊x + 1 / 2⌋ : ℤ) : ℚ) - x = 1 / 2 := by
      rcases abs_eq (by norm_num : (0 : ℚ) ≤ 1 / 2) |>.mp h with h3 | h3
      · exact h3
      · linarith
    rw [abs_of_nonneg hx, abs_of_nonneg (by linarith)]
    linarith
  · push_neg at hx
    have h1 := Int.ceil_lt_add_one (x - 1 / 2)
    have h2 : ((⌈x - 1 / 2⌉ : ℤ) : ℚ) - x = -(1 / 2) := by
      rcases abs_eq (by norm_num : (0 : ℚ) ≤ 1 / 2) |>.mp h with h3 | h3
      · linarith
      · exact h3
    rw [abs_of_neg hx, abs_of_neg (by linarith)]
    linarith

theorem result_eq (t : CodeTimer) :
    t.result = std_round ((t.stopped - t.started) * 10 ^ 6) / 10 ^ 6 := rfl


theorem result_nonneg (t : CodeTimer) (h : t.started ≤ t.stopped) : 0 ≤ t.result := by
  rw [result_eq]
  have h1 : 0 ≤ (t.stopped - t.started) * 10 ^ 6 :=
    mul_nonneg (by linarith) (by norm_num)
  exact div_nonneg (std_round_nonneg h1) (by norm_num)

theorem result_sub_abs_le (t : CodeTimer) :
    |t.result - (t.stopped - t.started)| ≤ 1 / (2 * 10 ^ 6) := by
  rw [result_eq]
  have h := abs_std_round_sub_le ((t.stopped - t.started) * 10 ^ 6)
  have e : std_round ((t.stopped - t.started) * 10 ^ 6) / 10 ^ 6 - (t.stopped - t.started)
      = (std_round ((t.stopped - t.started) * 10 ^ 6) - (t.stopped - t.started) * 10 ^ 6)
        / 10 ^ 6 := by
    field_simp
    ring
  rw [e, abs_div, abs_of_pos (by norm_num : (0 : ℚ) < 10 ^ 6), div_le_iff₀ (by norm_num)]
  calc |std_round ((t.stopped - t.started) * 10 ^ 6) - (t.stopped - t.started) * 10 ^ 6|
      ≤ 1 / 2 := h
    _ = 1 / (2 * 10 ^ 6) * 10 ^ 6 := by norm_num

theorem result_nearest (t : CodeTimer) (k : ℤ) :
    |t.result - (t.stopped - t.started)| ≤ |(k : ℚ) / 10 ^ 6 - (t.stopped - t.started)| := by
  rw [result_eq]
  have h := std_round_nearest ((t.stopped - t.started) * 10 ^ 6) k
  have e1 : std_round ((t.stopped - t.started) * 10 ^ 6) / 10 ^ 6 - (t.stopped - t.started)
      = (std_round ((t.stopped - t.started) * 10 ^ 6) - (t.stopped - t.started) * 10 ^ 6)
        / 10 ^ 6 := by
    field_simp
    ring
  have e2 : (k : ℚ) / 10 ^ 6 - (t.stopped - t.started)
      = ((k : ℚ) - (t.stopped - t.started) * 10 ^ 6) / 10 ^ 6 := by
    field_simp
    ring
  rw [e1, e2, abs_div, abs_div]
  exact div_le_div_of_nonneg_right h (abs_nonneg _)

theorem dtor_some (t : CodeTimer) (count : ℤ) (p : ℕ) (h : t.output = some p) :
    t.dtor count
      = ({ t with stopped := CodeTimer.now count, output := none },
         [Effect.store p ({ t with stopped := CodeTimer.now count } : CodeTimer).result]) := by
  unfold CodeTimer.dtor
  simp only [h]

theorem dtor_none (t : CodeTimer) (count : ℤ) (h : t.output = none) :
    t.dtor count
      = ({ t with stopped := CodeTimer.now count },
         [Effect.cout (t.instanceId ++ " finished in "
            ++ to_string ({ t with stopped := CodeTimer.now count } : CodeTimer).result
            ++ " ns" ++ "\n")]) := by
  unfold CodeTimer.dtor
  simp only [h]

theorem run_singleton (w : World) (e : Effect) : w.run [e] = w.perform e := rfl

/-! ## The rendered number holds no line break -/

theorem digitChar_ne_newline (d : ℕ) (h : d < 10) : Nat.digitChar d ≠ '\n' := by
  interval_cases d <;> decide

theorem toDigitsCore_no_newline (fuel : ℕ) :
    ∀ (n : ℕ) (ds : List Char), '\n' ∉ ds → '\n' ∉ Nat.toDigitsCore 10 fuel n ds := by
  induction fuel with
  | zero => intro n ds h; exact h
  | succ fuel ih =>
    intro n ds h
    have hcons : '\n' ∉ Nat.digitChar (n % 10) :: ds := by
      intro hmem
      rcases List.mem_cons.mp hmem with h1 | h1
      · exact digitChar_ne_newline _ (Nat.mod_lt _ (by norm_num)) h1.symm
      · exact h h1
    unfold Nat.toDigitsCore
    dsimp only
    split_ifs
    · exact hcons
    · exact ih _ _ hcons

theorem repr_no_newline (n : ℕ) : '\n' ∉ (Nat.repr n).data :=
  toDigitsCore_no_newline _ _ _ (List.not_mem_nil _)

theorem digits6_no_newline (n : ℕ) : '\n' ∉ digits6 n := by
  unfold digits6
  intro h
  simp only [List.map_cons, List.map_nil, List.mem_cons, List.mem_singleton, List.not_mem_nil,
    or_false] at h
  have key : ∀ d : ℕ, d < 10 → '\n' ≠ Char.ofNat (48 + d) := by
    intro d hd
    interval_cases d <;> decide
  rcases h with h | h | h | h | h | h
  all_goals exact key _ (Nat.mod_lt _ (by norm_num)) h

theorem to_string_no_newline (x : ℚ) : '\n' ∉ (to_string x).data := by
  unfold to_string
  simp only [String.data_append, List.mem_append, not_or]
  refine ⟨⟨⟨?_, repr_no_newline _⟩, by decide⟩, digits6_no_newline _⟩
  split_ifs <;> decide

theorem count_newline_line (L : String) (x : ℚ) :
    (L ++ " finished in " ++ to_string x ++ " ns" ++ "\n").data.count '\n'
      = L.data.count '\n' + 1 := by
  simp only [String.data_append, List.count_append]
  rw [List.count_eq_zero.mpr (to_string_no_newline x)]
  rfl

/-! ## The claims -/

/-- Claim C1. A timer built by the pointer constructor on the variable at the
non-null address `V` performs, in its destructor, exactly one effect: the
store of `result ()` (the rounded difference of the two clock readings) into
`V`.  Replayed on any world, this sets `V` to that value, leaves every other
variable alone and adds nothing to the console. -/
theorem C1_slot_timer_stores_result_and_prints_nothing (V : ℕ) (start stop : ℤ) (w : World) :
    ((CodeTimer.ctorResultStorage (some V) start).dtor stop).2
        = [Effect.store V
            ({ started := CodeTimer.now start, stopped := CodeTimer.now stop } : CodeTimer).result]
      ∧ ({ started := CodeTimer.now start, stopped := CodeTimer.now stop } : CodeTimer).result
        = std_round ((CodeTimer.now stop - CodeTimer.now start) * 10 ^ 6) / 10 ^ 6
      ∧ (w.run ((CodeTimer.ctorResultStorage (some V) start).dtor stop).2).mem
        = Function.update w.mem V
            ({ started := CodeTimer.now start, stopped := CodeTimer.now stop } : CodeTimer).result
      ∧ (w.run ((CodeTimer.ctorResultStorage (some V) start).dtor stop).2).mem V
        = ({ started := CodeTimer.now start, stopped := CodeTimer.now stop } : CodeTimer).result
      ∧ (w.run ((CodeTimer.ctorResultStorage (some V) start).dtor stop).2).console
        = w.console := by
  have h := dtor_some (CodeTimer.ctorResultStorage (some V) start) stop V rfl
  refine ⟨?_, rfl, ?_, ?_, ?_⟩
  · rw [h]; rfl
  · rw [h]; rfl
  · rw [h]
    show Function.update w.mem V _ V = _
    rw [Function.update_same]
    rfl
  · rw [h]; rfl

/-- The witness of C1: the demo's third timer on the variable at address 7,
started at tick 3000000 and stopped at tick 13000400, leaves 0.01 there and the
console empty. -/
theorem C1_slot_timer_stores_result_and_prints_nothing_witness :
    ((World.mk (fun _ => 5) "").run
        ((CodeTimer.ctorResultStorage (some 7) 3000000).dtor 13000400).2).mem 7 = 1 / 100
      ∧ ((World.mk (fun _ => 5) "").run
        ((CodeTimer.ctorResultStorage (some 7) 3000000).dtor 13000400).2).console = "" :=
  ⟨(C1_slot_timer_stores_result_and_prints_nothing 7 3000000 13000400
      (World.mk (fun _ => 5) "")).2.2.2.1.trans (by with_unfolding_all decide),
    (C1_slot_timer_stores_result_and_prints_nothing 7 3000000 13000400
      (World.mk (fun _ => 5) "")).2.2.2.2⟩

/-- Claim C2. A console-mode timer, built with the label `L` or with no argument
(then the label is `"CodeTimer"`), performs exactly one effect in its
destructor: it inserts into `std::cout` the label, `" finished in "`, the
decimal string of `result ()`, `" ns"` and the line end.  The text begins with
the label followed by `" finished in "`, the console grows by exactly this
text, and no variable is written.  The only line end the text holds beyond
those of the label itself is the final one. -/
theorem C2_console_timer_prints_one_labelled_line (L : String) (start stop : ℤ) (w : World) :
    (((CodeTimer.ctorInstanceId L start).dtor stop).2
        = [Effect.cout (L ++ " finished in "
            ++ to_string
                ({ started := CodeTimer.now start, stopped := CodeTimer.now stop } : CodeTimer).result
            ++ " ns" ++ "\n")]
      ∧ (w.run ((CodeTimer.ctorInstanceId L start).dtor stop).2).console
        = w.console ++ (L ++ " finished in "
            ++ to_string
                ({ started := CodeTimer.now start, stopped := CodeTimer.now stop } : CodeTimer).result
            ++ " ns" ++ "\n")
      ∧ (w.run ((CodeTimer.ctorInstanceId L start).dtor stop).2).mem = w.mem)
    ∧ (((CodeTimer.ctor start).dtor stop).2
        = [Effect.cout ("CodeTimer" ++ " finished in "
            ++ to_string
                ({ started := CodeTimer.now start, stopped := CodeTimer.now stop } : CodeTimer).result
            ++ " ns" ++ "\n")]
      ∧ (w.run ((CodeTimer.ctor start).dtor stop).2).console
        = w.console ++ ("CodeTimer" ++ " finished in "
            ++ to_string
                ({ started := CodeTimer.now start, stopped := CodeTimer.now stop } : CodeTimer).result
            ++ " ns" ++ "\n")
      ∧ (w.run ((CodeTimer.ctor start).dtor stop).2).mem = w.mem)
    ∧ (∃ rest : String,
        L ++ " finished in "
            ++ to_string
                ({ started := CodeTimer.now start, stopped := CodeTimer.now stop } : CodeTimer).result
            ++ " ns" ++ "\n"
          = (L ++ " finished in ") ++ rest)
    ∧ (L ++ " finished in "
            ++ to_string
                ({ started := CodeTimer.now start, stopped := CodeTimer.now stop } : CodeTimer).result
            ++ " ns" ++ "\n").data.count '\n'
        = L.data.count '\n' + 1
    ∧ ({ started := CodeTimer.now start, stopped := CodeTimer.now stop } : CodeTimer).result
        = std_round ((CodeTimer.now stop - CodeTimer.now start) * 10 ^ 6) / 10 ^ 6 := by
  have h1 := dtor_none (CodeTimer.ctorInstanceId L start) stop rfl
  have h2 := dtor_none (CodeTimer.ctor start) stop rfl
  refine ⟨⟨?_, ?_, ?_⟩, ⟨?_, ?_, ?_⟩, ?_, count_newline_line L _, rfl⟩
  · rw [h1]; rfl
  · rw [h1]; rfl
  · rw [h1]; rfl
  · rw [h2]; rfl
  · rw [h2]; rfl
  · rw [h2]; rfl
  · exact ⟨_, by rw [String.append_assoc (L ++ " finished in "), String.append_assoc (L ++ " finished in ")]⟩

/-- The witness of C2: the demo's second timer, started at tick 1000 and
stopped at tick 2500000, on an empty console. -/
theorem C2_console_timer_prints_one_labelled_line_witness :
    ((World.mk (fun _ => 5) "").run
        ((CodeTimer.ctorInstanceId "sub scope" 1000).dtor 2500000).2).console
      = "sub scope finished in 0.002499 ns\n" :=
  (C2_console_timer_prints_one_labelled_line "sub scope" 1000 2500000
    (World.mk (fun _ => 5) "")).1.2.1.trans (by with_unfolding_all decide)

/-- Claim C3. The method `result ()` returns `round ((stopped - started) * 10^6) / 10^6`,
where `round` yields an integer at distance at most one half, the one of
larger magnitude in a halfway case.  The returned value is an integer multiple
of `10^-6`, no such multiple is closer to `stopped - started`, and it lies
within `0.5 * 10^-6` of `stopped - started`. -/
theorem C3_result_rounds_to_nearest_millionth (t : CodeTimer) :
    t.result = std_round ((t.stopped - t.started) * 10 ^ 6) / 10 ^ 6
      ∧ (∀ x : ℚ, ∃ n : ℤ, std_round x = n ∧ |(n : ℚ) - x| ≤ 1 / 2
          ∧ (|(n : ℚ) - x| < 1 / 2 ∨ |x| < |(n : ℚ)|))
      ∧ (∃ n : ℤ, t.result = n / 10 ^ 6)
      ∧ (∀ k : ℤ, |t.result - (t.stopped - t.started)|
          ≤ |(k : ℚ) / 10 ^ 6 - (t.stopped - t.started)|)
      ∧ |t.result - (t.stopped - t.started)| ≤ 1 / 2 * (1 / 10 ^ 6) := by
  refine ⟨rfl, ?_, ?_, result_nearest t, ?_⟩
  · intro x
    obtain ⟨n, hn⟩ := std_round_isInt x
    have h1 := abs_std_round_sub_le x
    have h2 := std_round_tie_away x
    rw [hn] at h1 h2
    refine ⟨n, hn, h1, ?_⟩
    rcases lt_or_eq_of_le h1 with h3 | h3
    · exact Or.inl h3
    · exact Or.inr (h2 h3)
  · obtain ⟨n, hn⟩ := std_round_isInt ((t.stopped - t.started) * 10 ^ 6)
    exact ⟨n, by rw [result_eq, hn]⟩
  · have h := result_sub_abs_le t
    calc |t.result - (t.stopped - t.started)| ≤ 1 / (2 * 10 ^ 6) := h
      _ = 1 / 2 * (1 / 10 ^ 6) := by norm_num

/-- The witness of C3: the halfway intervals of 2.5 and -2.5 millionths are
rounded away from zero, to 3 and -3 millionths. -/
theorem C3_result_rounds_to_nearest_millionth_witness :
    ({ stopped := 25 / 10 ^ 7 } : CodeTimer).result * 10 ^ 6 = 3
      ∧ ({ started := 25 / 10 ^ 7 } : CodeTimer).result * 10 ^ 6 = -3 :=
  ⟨by
      rw [(C3_result_rounds_to_nearest_millionth { stopped := 25 / 10 ^ 7 }).1]
      with_unfolding_all decide,
    by
      rw [(C3_result_rounds_to_nearest_millionth { started := 25 / 10 ^ 7 }).1]
      with_unfolding_all decide⟩

/-- Claim C5. When the stop reading is not earlier than the start timestamp, the
value of `result ()` that the destructor reports, by a store or on the console,
is not negative; and `result ()` is not negative for any timer state whose
`stopped` is at least its `started`. -/
theorem C5_elapsed_nonneg (t : CodeTimer) (count : ℤ) (h : t.started ≤ CodeTimer.now count) :
    0 ≤ (t.dtor count).1.result
      ∧ ((∃ p, t.output = some p ∧ (t.dtor count).2 = [Effect.store p (t.dtor count).1.result])
        ∨ (t.output = none ∧ (t.dtor count).2
            = [Effect.cout (t.instanceId ++ " finished in "
                ++ to_string (t.dtor count).1.result ++ " ns" ++ "\n")]))
      ∧ (∀ u : CodeTimer, u.started ≤ u.stopped → 0 ≤ u.result) := by
  refine ⟨?_, ?_, result_nonneg⟩
  · cases ht : t.output with
    | none =>
      rw [dtor_none t count ht]
      exact result_nonneg _ h
    | some p =>
      rw [dtor_some t count p ht]
      exact result_nonneg _ h
  · cases ht : t.output with
    | none =>
      right
      rw [dtor_none t count ht]
      exact ⟨rfl, rfl⟩
    | some p =>
      left
      rw [dtor_some t count p ht]
      exact ⟨p, rfl, rfl⟩

/-- The witness of C5: a console timer started at tick 0 and stopped at tick 2500. -/
theorem C5_elapsed_nonneg_witness :
    (CodeTimer.ctor 0).started ≤ CodeTimer.now 2500
      ∧ 0 ≤ ((CodeTimer.ctor 0).dtor 2500).1.result :=
  ⟨by norm_num [CodeTimer.ctor, CodeTimer.now],
    (C5_elapsed_nonneg (CodeTimer.ctor 0) 2500 (by norm_num [CodeTimer.ctor, CodeTimer.now])).1⟩

/-- Claim C6. Timers report in the order their scopes end.  For a timer in a
block nested in the scope of another, the inner destructor's effects are
applied before the rest of the outer scope runs and before the outer
destructor's effects; with two console timers the inner line precedes the outer
line.  Two console timers `"A"` and `"B"` in consecutive blocks print the `"A"`
line, then the `"B"` line.  The demo prints the lines of `"sub scope"`, of
`"timer3"` and of `"int main"`, in this order: the timer built first reports
last. -/
theorem C6_reports_in_scope_exit_order (w : World) :
    (∀ (outer inner : CodeTimer) (outerStop innerStop : ℤ) (pre body post : World → World),
        scope outer outerStop (fun v => post (scope inner innerStop body (pre v))) w
          = (post ((body (pre w)).run (inner.dtor innerStop).2)).run (outer.dtor outerStop).2)
      ∧ (∀ (Lo Li : String) (outerStart innerStart innerStop outerStop : ℤ),
        (scope (CodeTimer.ctorInstanceId Lo outerStart) outerStop
            (scope (CodeTimer.ctorInstanceId Li innerStart) innerStop id) w).console
          = w.console
            ++ (Li ++ " finished in "
              ++ to_string ({ started := CodeTimer.now innerStart,
                              stopped := CodeTimer.now innerStop } : CodeTimer).result
              ++ " ns" ++ "\n")
            ++ (Lo ++ " finished in "
              ++ to_string ({ started := CodeTimer.now outerStart,
                              stopped := CodeTimer.now outerStop } : CodeTimer).result
              ++ " ns" ++ "\n"))
      ∧ (∀ (startA stopA startB stopB : ℤ),
        (scope (CodeTimer.ctorInstanceId "B" startB) stopB id
            (scope (CodeTimer.ctorInstanceId "A" startA) stopA id w)).console
          = w.console
            ++ ("A" ++ " finished in "
              ++ to_string ({ started := CodeTimer.now startA,
                              stopped := CodeTimer.now stopA } : CodeTimer).result
              ++ " ns" ++ "\n")
            ++ ("B" ++ " finished in "
              ++ to_string ({ started := CodeTimer.now startB,
                              stopped := CodeTimer.now stopB } : CodeTimer).result
              ++ " ns" ++ "\n"))
      ∧ (∀ (clock : Fin 6 → ℤ) (t3result : ℕ),
        (demo.main clock t3result w).console
          = w.console
            ++ ("sub scope" ++ " finished in "
              ++ to_string ({ started := CodeTimer.now (clock 1),
                              stopped := CodeTimer.now (clock 2) } : CodeTimer).result
              ++ " ns" ++ "\n")
            ++ ("timer3 finished in "
              ++ to_string ({ started := CodeTimer.now (clock 3),
                              stopped := CodeTimer.now (clock 4) } : CodeTimer).result
              ++ " ns" ++ "\n")
            ++ ("int main" ++ " finished in "
              ++ to_string ({ started := CodeTimer.now (clock 0),
                              stopped := CodeTimer.now (clock 5) } : CodeTimer).result
              ++ " ns" ++ "\n")) := by
  refine ⟨?_, ?_, ?_, ?_⟩
  · intro outer inner outerStop innerStop pre body post
    rfl
  · intro Lo Li outerStart innerStart innerStop outerStop
    unfold scope
    rw [dtor_none (CodeTimer.ctorInstanceId Lo outerStart) outerStop rfl,
      dtor_none (CodeTimer.ctorInstanceId Li innerStart) innerStop rfl]
    rfl
  · intro startA stopA startB stopB
    unfold scope
    rw [dtor_none (CodeTimer.ctorInstanceId "B" startB) stopB rfl,
      dtor_none (CodeTimer.ctorInstanceId "A" startA) stopA rfl]
    rfl
  · intro clock t3result
    unfold demo.main scope
    rw [dtor_none (CodeTimer.ctorInstanceId "int main" (clock 0)) (clock 5) rfl,
      dtor_none (CodeTimer.ctorInstanceId "sub scope" (clock 1)) (clock 2) rfl,
      dtor_some (CodeTimer.ctorResultStorage (some t3result) (clock 3)) (clock 4) t3result rfl]
    simp only [run_singleton, World.perform, id, Function.update_same]
    rfl

/-- The witness of C6: the demo run with the clock readings 0, 1000, 2500000,
3000000, 13000400 and 20000000 on an empty console. -/
theorem C6_reports_in_scope_exit_order_witness :
    (demo.main (fun i => [0, 1000, 2500000, 3000000, 13000400, 20000000].getD i.val 0) 7
        (World.mk (fun _ => 5) "")).console
      = "sub scope finished in 0.002499 ns\ntimer3 finished in 0.010000 ns\nint main finished in 0.020000 ns\n" :=
  ((C6_reports_in_scope_exit_order (World.mk (fun _ => 5) "")).2.2.2
      (fun i => [0, 1000, 2500000, 3000000, 13000400, 20000000].getD i.val 0) 7).trans
    (by with_unfolding_all decide)

/-- Claim C8. A slot-mode timer writes into its slot once.  After the destructor
has run, the timer's `output` pointer is null; a second run of the destructor
on that state performs no store at all, so the slot still holds the value of
the first write. -/
theorem C8_slot_written_once (t : CodeTimer) (V : ℕ) (h : t.output = some V)
    (stop again : ℤ) (w : World) :
    (t.dtor stop).2 = [Effect.store V ({ t with stopped := CodeTimer.now stop } : CodeTimer).result]
      ∧ (t.dtor stop).1.output = none
      ∧ (∀ p v, Effect.store p v ∉ ((t.dtor stop).1.dtor again).2)
      ∧ ((t.dtor stop).1.dtor again).1.output = none
      ∧ ((w.run (t.dtor stop).2).run ((t.dtor stop).1.dtor again).2).mem
        = (w.run (t.dtor stop).2).mem
      ∧ ((w.run (t.dtor stop).2).run ((t.dtor stop).1.dtor again).2).mem V
        = ({ t with stopped := CodeTimer.now stop } : CodeTimer).result := by
  have h1 := dtor_some t stop V h
  have h2 := dtor_none (t.dtor stop).1 again (by rw [h1])
  refine ⟨?_, ?_, ?_, ?_, ?_, ?_⟩
  · rw [h1]
  · rw [h1]
  · intro p v hmem
    rw [h2] at hmem
    simp at hmem
  · rw [h2]
    rw [h1]
  · rw [h2]; rfl
  · rw [h2, h1]
    show Function.update w.mem V _ V = _
    rw [Function.update_same]

/-- The witness of C8: the demo's third timer, on the variable at address 0. -/
theorem C8_slot_written_once_witness :
    (CodeTimer.ctorResultStorage (some 0) 0).output = some 0
      ∧ ((CodeTimer.ctorResultStorage (some 0) 0).dtor 10000000).1.output = none
      ∧ ∀ p v, Effect.store p v
          ∉ (((CodeTimer.ctorResultStorage (some 0) 0).dtor 10000000).1.dtor 20000000).2 :=
  ⟨rfl,
    (C8_slot_written_once (CodeTimer.ctorResultStorage (some 0) 0) 0 rfl 10000000 20000000
      ⟨fun _ => 0, ""⟩).2.1,
    (C8_slot_written_once (CodeTimer.ctorResultStorage (some 0) 0) 0 rfl 10000000 20000000
      ⟨fun _ => 0, ""⟩).2.2.1⟩

/-- Claim C9. The destructor changes two fields of the timer at most: `stopped`
becomes the stop reading and `output` ends null (it was null already in
console mode).  `started` and `instanceId` keep the values the constructor gave
them, and each constructor sets `started` to its own clock reading. -/
theorem C9_dtor_frame (t : CodeTimer) (count : ℤ) :
    (t.dtor count).1
        = { instanceId := t.instanceId, started := t.started,
            stopped := CodeTimer.now count, output := none }
      ∧ (t.dtor count).1.started = t.started
      ∧ (t.dtor count).1.instanceId = t.instanceId
      ∧ (t.dtor count).1.stopped = CodeTimer.now count
      ∧ (t.output = none → (t.dtor count).1.output = t.output)
      ∧ (∀ c : ℤ, (CodeTimer.ctor c).started = CodeTimer.now c)
      ∧ (∀ (c : ℤ) (L : String), (CodeTimer.ctorInstanceId L c).started = CodeTimer.now c)
      ∧ (∀ (c : ℤ) (p : Option ℕ), (CodeTimer.ctorResultStorage p c).started = CodeTimer.now c) := by
  have key : (t.dtor count).1
      = { instanceId := t.instanceId, started := t.started,
          stopped := CodeTimer.now count, output := none } := by
    cases h : t.output with
    | none =>
      rw [dtor_none t count h]
      simp only [h]
    | some p => rw [dtor_some t count p h]
  refine ⟨key, ?_, ?_, ?_, ?_, fun _ => rfl, fun _ _ => rfl, fun _ _ => rfl⟩
  · rw [key]
  · rw [key]
  · rw [key]
  · intro h
    rw [key, h]

/-- The witness of C9: a labelled timer started at tick 5 and destroyed at tick 9. -/
theorem C9_dtor_frame_witness :
    ((CodeTimer.ctorInstanceId "sub scope" 5).dtor 9).1.started = CodeTimer.now 5
      ∧ ((CodeTimer.ctorInstanceId "sub scope" 5).dtor 9).1.instanceId = "sub scope" :=
  ⟨(C9_dtor_frame (CodeTimer.ctorInstanceId "sub scope" 5) 9).2.1,
    (C9_dtor_frame (CodeTimer.ctorInstanceId "sub scope" 5) 9).2.2.1⟩

/-- Claim C10. Which report the destructor makes depends only on whether the
stored pointer is null when it runs.  A timer built by the pointer constructor
on a null pointer stores nothing: it prints the line of the default label
`"CodeTimer"`, the very effect of a timer built with no argument. -/
theorem C10_null_pointer_falls_back_to_console (start stop : ℤ) (w : World) :
    ((CodeTimer.ctorResultStorage none start).dtor stop).2
        = [Effect.cout ("CodeTimer" ++ " finished in "
            ++ to_string
                ({ started := CodeTimer.now start, stopped := CodeTimer.now stop } : CodeTimer).result
            ++ " ns" ++ "\n")]
      ∧ ((CodeTimer.ctorResultStorage none start).dtor stop).2
        = ((CodeTimer.ctor start).dtor stop).2
      ∧ (∀ p v, Effect.store p v ∉ ((CodeTimer.ctorResultStorage none start).dtor stop).2)
      ∧ (w.run ((CodeTimer.ctorResultStorage none start).dtor stop).2).mem = w.mem
      ∧ (w.run ((CodeTimer.ctorResultStorage none start).dtor stop).2).console
        = w.console ++ ("CodeTimer" ++ " finished in "
            ++ to_string
                ({ started := CodeTimer.now start, stopped := CodeTimer.now stop } : CodeTimer).result
            ++ " ns" ++ "\n")
      ∧ (∀ (t : CodeTimer) (c : ℤ), (t.dtor c).2
          = match t.output with
            | some p => [Effect.store p ({ t with stopped := CodeTimer.now c } : CodeTimer).result]
            | none => [Effect.cout (t.instanceId ++ " finished in "
                ++ to_string ({ t with stopped := CodeTimer.now c } : CodeTimer).result
                ++ " ns" ++ "\n")]) := by
  have h := dtor_none (CodeTimer.ctorResultStorage none start) stop rfl
  refine ⟨?_, ?_, ?_, ?_, ?_, ?_⟩
  · rw [h]; rfl
  · rfl
  · intro p v hmem
    rw [h] at hmem
    simp at hmem
  · rw [h]; rfl
  · rw [h]; rfl
  · intro t c
    cases ht : t.output with
    | none =>
      rw [dtor_none t c ht]
      rfl
    | some p =>
      rw [dtor_some t c p ht]
      rfl

/-- The witness of C10: the pointer constructor on a null pointer, started at
tick 3000000 and stopped at tick 13000400, on an empty console. -/
theorem C10_null_pointer_falls_back_to_console_witness :
    ((World.mk (fun _ => 5) "").run
        ((CodeTimer.ctorResultStorage none 3000000).dtor 13000400).2).console
      = "CodeTimer finished in 0.010000 ns\n" :=
  (C10_null_pointer_falls_back_to_console 3000000 13000400
    (World.mk (fun _ => 5) "")).2.2.2.2.1.trans (by with_unfolding_all decide)

end RCH
